import Mathlib

/-!
Verification of the LoraChat message-delivery and connection-resilience core.

This file gives a shallow embedding, in Lean, of the relevant functions of
the repository (mainly `src/tui.js`, plus the `sendMessage` socket handler of
`src/server.js`) and proves or refutes the specified properties about them.

Conventions of the embedding:
- JavaScript arrays become `List`; the `state.pendingMessages` JS `Map`
  becomes an association list with insertion-order preserving `set`,
  `get`, `has` and `delete` operations.
- A JS field that can be `null`/`undefined` becomes an `Option`.
- `Date.now()` is passed in explicitly as a `now : Nat` parameter.
- The radio transport is external: where a source function awaits the
  transport (`sendTextMessage`), the transport reply for each attempt is
  supplied by an explicit oracle `Nat → Option (Nat × Nat)` mapping the
  attempt number to `some (expectedAckCrc, estTimeout)` on transport-level
  acceptance and `none` when the transport call throws.
- Asynchronous callbacks (the ack timeout armed with `setTimeout`, the
  `SendConfirmed` push event) become explicit transition functions that an
  event trace applies to the state.
-/

set_option autoImplicit false
set_option maxRecDepth 8192

namespace LoraChat

/-- The two conversation kinds: the source stores the JS strings
`"channel"` and `"direct"` in the `type` field of a message. -/
inductive ConvKind where
  | channel
  | direct
deriving DecidableEq, Repr

/-- Delivery status strings of outgoing messages in `src/tui.js`:
`"sending" | "sent" | "delivered" | "failed"`. Inbound messages carry no
status field, hence `Option MsgStatus` below. -/
inductive MsgStatus where
  | sending
  | sent
  | delivered
  | failed
deriving DecidableEq, Repr

/-- A chat message as constructed in `src/tui.js` (`sendMessage`,
`handleContactMessage`, `handleChannelMessage`). `none` in `sender` models a
JS `null`/absent sender, `none` in `status` models the absent status of
inbound messages. -/
structure Msg where
  id : String
  type : ConvKind
  channelIdx : Option Nat
  contactName : Option String
  text : String
  sender : Option String
  outgoing : Bool
  status : Option MsgStatus
  timestamp : Option Nat
deriving DecidableEq, Repr

/-- Message ids are generated as `Date.now().toString()` at every creation
site (`sendMessage`, `handleContactMessage`, `handleChannelMessage`). -/
def genMsgId (now : Nat) : String :=
  toString now

/-- The content part of the duplicate check of `addMessage` in `src/tui.js`:
`m.sender === msg.sender && m.text === msg.text && m.type === msg.type &&
(m.type === "channel" ? m.channelIdx === msg.channelIdx
                      : m.contactName === msg.contactName)`.
This is exactly the uniqueness key
(conversationKind, channelIndex-or-peerName, senderDisplayName, text). -/
def sameContentKey (m msg : Msg) : Bool :=
  m.sender == msg.sender && m.text == msg.text && m.type == msg.type &&
    (if m.type == ConvKind.channel then m.channelIdx == msg.channelIdx
     else m.contactName == msg.contactName)

/-- Full duplicate check of `addMessage`: duplicate by id first, then by
content (`m.id === msg.id || (...)`). -/
def isDuplicateOf (m msg : Msg) : Bool :=
  m.id == msg.id || sameContentKey m msg

/-- The check `state.messages.some(m => ...)` over the stored log. -/
def isDuplicate (msgs : List Msg) (msg : Msg) : Bool :=
  msgs.any (fun m => isDuplicateOf m msg)

/-- Function `addMessage` of `src/tui.js`: reject when a duplicate exists, otherwise
push onto the stored log (and persist, which this embedding does not model). -/
def addMessage (msgs : List Msg) (msg : Msg) : List Msg :=
  if isDuplicate msgs msg then msgs else msgs ++ [msg]

/-- Function `updateMessageStatus` of `src/tui.js`: `state.messages.find(m => m.id ===
msgId)` and mutate that first hit, a no-op when absent. -/
def updateMessageStatus (msgs : List Msg) (msgId : String) (status : MsgStatus) : List Msg :=
  match msgs with
  | [] => []
  | m :: rest =>
      if m.id == msgId then { m with status := some status } :: rest
      else m :: updateMessageStatus rest msgId status

/-- A contact as held in `state.contacts` after `onConnected` maps the device
records: `{ name: c.advName, publicKey: c.publicKey, type: c.type }`. The
public key is a byte array. -/
structure Contact where
  name : String
  publicKey : List Nat
  type : Nat
deriving DecidableEq, Repr

/-- A channel as held in `state.channels`: `{ idx, name }`. -/
structure Channel where
  idx : Nat
  name : String
deriving DecidableEq, Repr

/-- The record `state.selectedChat = { type, idx, name }`; `idx` is `null` for direct
chats and `name` is set by `selectChat`. -/
structure SelectedChat where
  type : ConvKind
  idx : Option Nat
  name : Option String
deriving DecidableEq, Repr

/-- An entry of `state.pendingMessages` as created in `sendWithRetry`:
`{ msgId, attempt, publicKey, text, timeout }`. Instead of the JS timer
handle we record the armed timeout duration `result.estTimeout + 3000`. -/
structure PendingEntry where
  msgId : String
  attempt : Nat
  publicKey : List Nat
  text : String
  timeoutMs : Nat
deriving DecidableEq, Repr

/-- The mutable module-level `state` object of `src/tui.js`, restricted to
the fields the delivery/store/unread core reads and writes. The live
`connection` object is external and is represented by the `connected` flag
together with the transport oracle of each operation. -/
structure AppState where
  connected : Bool
  selfInfo : Option String
  contacts : List Contact
  channels : List Channel
  messages : List Msg
  pending : List (Nat × PendingEntry)
  selectedChat : SelectedChat
  unreadCounts : List (String × Nat)
deriving DecidableEq, Repr

/-! JS `Map` operations used on `state.pendingMessages`, modelled on an
association list that preserves insertion order and keeps keys unique. -/

/-- Operation `Map.get(k)` (also serves as `Map.has(k)` via `Option.isSome`). -/
def mapGet (m : List (Nat × PendingEntry)) (k : Nat) : Option PendingEntry :=
  (m.find? (fun p => p.1 == k)).map (fun p => p.2)

/-- Operation `Map.set(k, v)`: overwrite in place when the key exists, else append. -/
def mapSet (m : List (Nat × PendingEntry)) (k : Nat) (v : PendingEntry) :
    List (Nat × PendingEntry) :=
  if m.any (fun p => p.1 == k) then
    m.map (fun p => if p.1 == k then (k, v) else p)
  else
    m ++ [(k, v)]

/-- Operation `Map.delete(k)`. -/
def mapDelete (m : List (Nat × PendingEntry)) (k : Nat) : List (Nat × PendingEntry) :=
  m.filter (fun p => p.1 != k)

/-! Unread-count helpers of `src/tui.js`. -/

/-- Function `getChatKey(type, idOrName)` returns the template string
`type:idOrName`. -/
def getChatKey (type idOrName : String) : String :=
  type ++ ":" ++ idOrName

/-- The assignment `state.unreadCounts[key] = (state.unreadCounts[key] || 0) + 1`
on the unread-count record. -/
def bumpUnread (counts : List (String × Nat)) (key : String) : List (String × Nat) :=
  match counts.find? (fun p => p.1 == key) with
  | some (_, n) => counts.map (fun p => if p.1 == key then (key, n + 1) else p)
  | none => counts ++ [(key, 1)]

/-- Function `incrementUnread(type, idOrName)` of `src/tui.js`. -/
def incrementUnread (s : AppState) (type idOrName : String) : AppState :=
  { s with unreadCounts := bumpUnread s.unreadCounts (getChatKey type idOrName) }

/-- Function `getUnreadCount(type, idOrName)` of `src/tui.js`
(`state.unreadCounts[key] || 0`). -/
def getUnreadCount (s : AppState) (type idOrName : String) : Nat :=
  match (s.unreadCounts.find? (fun p => p.1 == getChatKey type idOrName)) with
  | some (_, n) => n
  | none => 0

/-! Hex encoding (`BufferUtils.bytesToHex` of meshcore.js): every byte to two
lowercase hex characters. -/

/-- One hex digit, `0`-`9` then `a`-`f`. -/
def hexDigit (n : Nat) : Char :=
  if n < 10 then Char.ofNat (48 + n) else Char.ofNat (87 + n)

/-- Two hex characters of one byte. -/
def byteToHex (b : Nat) : String :=
  String.mk [hexDigit (b / 16 % 16), hexDigit (b % 16)]

/-- Function `BufferUtils.bytesToHex` over a byte list. -/
def bytesToHex (bs : List Nat) : String :=
  String.join (bs.map byteToHex)

/-! ## Delivery tracker: `sendWithRetry`, ack timeout and `onSendConfirmed` -/

/-- Constant `MAX_RETRIES = 2`: retry 2 more times after the initial attempt,
3 total attempts. -/
def MAX_RETRIES : Nat := 2

/-- Body of `sendWithRetry(publicKey, text, msgId, attempt)` of `src/tui.js`.
`oracle attempt` is the transport reply to the `sendTextMessage` call of that
attempt: `some (expectedAckCrc, estTimeout)` on acceptance, `none` when the
call throws. On acceptance a pending entry armed with `estTimeout + 3000` ms
is stored under `expectedAckCrc` and the message status becomes `sent`; on a
throw the send is retried immediately while `attempt < MAX_RETRIES`, else the
status becomes `failed`. `fuel` only bounds the structural recursion: the
`attempt < MAX_RETRIES` guard means a call with `fuel = MAX_RETRIES` never
reaches the fuel-exhausted case. -/
def sendWithRetryAux (oracle : Nat → Option (Nat × Nat)) (publicKey : List Nat)
    (text msgId : String) : Nat → Nat → AppState → AppState
  | attempt, fuel, s =>
    match oracle attempt with
    | some (expectedAckCrc, estTimeout) =>
        let pe : PendingEntry := ⟨msgId, attempt, publicKey, text, estTimeout + 3000⟩
        let s1 := { s with pending := mapSet s.pending expectedAckCrc pe }
        { s1 with messages := updateMessageStatus s1.messages msgId MsgStatus.sent }
    | none =>
        match fuel with
        | Nat.succ f =>
            if attempt < MAX_RETRIES then
              sendWithRetryAux oracle publicKey text msgId (attempt + 1) f s
            else
              { s with messages := updateMessageStatus s.messages msgId MsgStatus.failed }
        | 0 => { s with messages := updateMessageStatus s.messages msgId MsgStatus.failed }

/-- Function `sendWithRetry`, the entry point of the aux recursion. -/
def sendWithRetry (oracle : Nat → Option (Nat × Nat)) (s : AppState)
    (publicKey : List Nat) (text msgId : String) (attempt : Nat) : AppState :=
  sendWithRetryAux oracle publicKey text msgId attempt MAX_RETRIES s

/-- The `setTimeout` callback armed by `sendWithRetry` for ack code
`ackCode`, firing after the armed timeout: when the entry is still pending it
is removed and either re-sent (`attempt < MAX_RETRIES`) or its message is
marked `failed`. -/
def fireAckTimeout (oracle : Nat → Option (Nat × Nat)) (s : AppState) (ackCode : Nat) :
    AppState :=
  match mapGet s.pending ackCode with
  | some pe =>
      let s1 := { s with pending := mapDelete s.pending ackCode }
      if pe.attempt < MAX_RETRIES then
        sendWithRetry oracle s1 pe.publicKey pe.text pe.msgId (pe.attempt + 1)
      else
        { s1 with messages := updateMessageStatus s1.messages pe.msgId MsgStatus.failed }
  | none => s

/-- Function `onSendConfirmed(data)` of `src/tui.js`: look up the pending entry by the
ack code, cancel its timer, remove it and mark the message `delivered`; a
no-op for unknown ack codes. -/
def onSendConfirmed (s : AppState) (ackCode : Nat) : AppState :=
  match mapGet s.pending ackCode with
  | some pe =>
      { s with pending := mapDelete s.pending ackCode,
               messages := updateMessageStatus s.messages pe.msgId MsgStatus.delivered }
  | none => s

/-- An asynchronous delivery event: a `SendConfirmed` push or an armed ack
timeout firing. -/
inductive AckEvent where
  | confirmed (ackCode : Nat)
  | timeoutFired (ackCode : Nat)
deriving DecidableEq, Repr

/-- Apply one delivery event to the state. -/
def applyAckEvent (oracle : Nat → Option (Nat × Nat)) (s : AppState) : AckEvent → AppState
  | AckEvent.confirmed c => onSendConfirmed s c
  | AckEvent.timeoutFired c => fireAckTimeout oracle s c

/-- Apply a trace of delivery events in order. -/
def applyAckEvents (oracle : Nat → Option (Nat × Nat)) (s : AppState)
    (evs : List AckEvent) : AppState :=
  evs.foldl (applyAckEvent oracle) s

/-! ## `sendMessage` of `src/tui.js` -/

/-- JS `a || b` on an optional string: an absent or empty (falsy) `a` falls
back to `b`. -/
def jsOrStr (a : Option String) (b : String) : String :=
  match a with
  | some s => if s == "" then b else s
  | none => b

/-- The outgoing message object built by `sendMessage(text)`:
`{ id: msgId, type, channelIdx, contactName, text, sender: selfInfo?.name ||
"Me", outgoing: true, status: "sending", timestamp: Date.now() }`. -/
def mkOutgoingMsg (s : AppState) (now : Nat) (text : String) : Msg :=
  { id := genMsgId now,
    type := s.selectedChat.type,
    channelIdx := if s.selectedChat.type == ConvKind.channel then s.selectedChat.idx else none,
    contactName := if s.selectedChat.type == ConvKind.direct then s.selectedChat.name else none,
    text := text,
    sender := some (jsOrStr s.selfInfo "Me"),
    outgoing := true,
    status := some MsgStatus.sending,
    timestamp := some now }

/-- What `sendMessage` does after storing the message: which transport
interaction it starts (or that it stopped before one). -/
inductive SendDispatch where
  /-- Guard `if (!state.connected)`: status message, no message stored, no send. -/
  | notConnected
  /-- Channel branch: `await sendChannelTextMessage(selectedChat.idx, text)`
  has been issued for the stored message. -/
  | channelSendStarted (channelIdx : Option Nat) (msgId : String)
  /-- Direct branch with a matching contact:
  `await sendWithRetry(contact.publicKey, text, msgId, 0)` is invoked. -/
  | retryStarted (publicKey : List Nat) (msgId : String)
  /-- Direct branch, no matching contact: the stored message was marked
  `failed` synchronously and nothing was sent. -/
  | contactNotFound (msgId : String)
deriving DecidableEq, Repr

/-- The synchronous prefix of `sendMessage(text)`: the connected guard, the
creation and `addMessage` of the outgoing message, and the branch on the
selected chat up to the first transport interaction. -/
def sendMessageStart (s : AppState) (now : Nat) (text : String) : AppState × SendDispatch :=
  if !s.connected then (s, SendDispatch.notConnected)
  else
    let msgId := genMsgId now
    let msg := mkOutgoingMsg s now text
    let s1 := { s with messages := addMessage s.messages msg }
    if s.selectedChat.type == ConvKind.channel then
      (s1, SendDispatch.channelSendStarted s.selectedChat.idx msgId)
    else
      match s.contacts.find? (fun c => some c.name == s.selectedChat.name) with
      | some c => (s1, SendDispatch.retryStarted c.publicKey msgId)
      | none =>
          ({ s1 with messages := updateMessageStatus s1.messages msgId MsgStatus.failed },
           SendDispatch.contactNotFound msgId)

/-- Continuation of the channel branch once
`sendChannelTextMessage` resolves: `updateMessageStatus(msgId, "sent")`. -/
def channelSendResolved (s : AppState) (msgId : String) : AppState :=
  { s with messages := updateMessageStatus s.messages msgId MsgStatus.sent }

/-! ## Inbound direct messages: `handleContactMessage` -/

/-- An inbound contact-message record from the mailbox
(`message.contactMessage`). -/
structure InboundContactMsg where
  pubKeyPfx : List Nat
  text : String
deriving DecidableEq, Repr

/-- Function `handleContactMessage(msg)` of `src/tui.js`: resolve the sender by
6-byte key-prefix match against the contact snapshot, falling back (also for
a falsy empty contact name, per `contact?.name || ...`) to the first 12 hex
characters of the prefix; build the message, `addMessage` it, and increment
the unread count unless the chat is currently selected. The unread increment
runs unconditionally after `addMessage`, whether or not the message was
stored. -/
def handleContactMessage (s : AppState) (now : Nat) (msg : InboundContactMsg) : AppState :=
  let contact := s.contacts.find? (fun c =>
    bytesToHex (c.publicKey.take 6) == bytesToHex msg.pubKeyPfx)
  let senderName :=
    jsOrStr (contact.map (fun c => c.name)) ((bytesToHex msg.pubKeyPfx).take 12)
  let newMsg : Msg :=
    { id := genMsgId now,
      type := ConvKind.direct,
      channelIdx := none,
      contactName := some senderName,
      text := msg.text,
      sender := some senderName,
      outgoing := false,
      status := none,
      timestamp := some now }
  let s1 := { s with messages := addMessage s.messages newMsg }
  if !(s1.selectedChat.type == ConvKind.direct && s1.selectedChat.name == some senderName) then
    incrementUnread s1 "direct" senderName
  else s1

/-! ## Connection supervisor: backoff, reset on success and on disconnect -/

/-- The delay computed by `scheduleRetry` of `src/tui.js`:
`Math.min(2000 * Math.pow(2, retryAttempt), 30000)`. -/
def retryDelay (retryAttempt : Nat) : Nat :=
  min (2000 * 2 ^ retryAttempt) 30000

/-- Function `scheduleRetry()`: computes the delay from the current `retryAttempt`,
then increments `retryAttempt`; returns (delay armed, new counter). -/
def scheduleRetry (retryAttempt : Nat) : Nat × Nat :=
  (retryDelay retryAttempt, retryAttempt + 1)

/-- The supervisor events that touch `retryAttempt` in `src/tui.js`. -/
inductive ConnEvent where
  /-- Event that `connect()` threw: the catch block calls `scheduleRetry()`. -/
  | connectFailure
  /-- Event that `connect()` succeeded: `retryAttempt = 0`, no retry armed. -/
  | connectSuccess
  /-- Event handled by `onDisconnected()`: `retryAttempt = 0` first, then `scheduleRetry()`. -/
  | surpriseDisconnect
deriving DecidableEq, Repr

/-- One supervisor step: the new `retryAttempt` and the armed reconnect
delay, when one is armed. -/
def connStep (retryAttempt : Nat) : ConnEvent → Nat × Option Nat
  | ConnEvent.connectFailure =>
      let (d, a) := scheduleRetry retryAttempt
      (a, some d)
  | ConnEvent.connectSuccess => (0, none)
  | ConnEvent.surpriseDisconnect =>
      let (d, a) := scheduleRetry 0
      (a, some d)

/-- Run a list of supervisor events from a counter value, collecting every
armed delay in order. -/
def connRun (retryAttempt : Nat) : List ConnEvent → Nat × List Nat
  | [] => (retryAttempt, [])
  | e :: es =>
      let (a, d) := connStep retryAttempt e
      let (a2, ds) := connRun a es
      (a2, (match d with | some x => [x] | none => []) ++ ds)

/-! ## Message cache: `loadMessageCache` -/

/-- The `type` field as the JS string that appears in the cache file. -/
def convKindStr : ConvKind → String
  | ConvKind.channel => "channel"
  | ConvKind.direct => "direct"

/-- Rendering of `m.sender` in a template literal: a `null`/absent sender prints as the
text `null` (the embedding folds `null` and `undefined` into `none`). -/
def jsTemplateOptStr : Option String → String
  | some s => s
  | none => "null"

/-- Models the template fragment of `m.channelIdx` with the JS falsy-or
fallback: `0`, `null` and `undefined` are all falsy, so
channel index 0 and a missing index both contribute the empty string. -/
def jsFalsyOrNat : Option Nat → String
  | some (Nat.succ n) => toString (Nat.succ n)
  | some 0 => ""
  | none => ""

/-- The load-time dedup key of `loadMessageCache`:
a vertical-bar-joined template of type, sender, text, channel index
(falsy-or-empty) and contact name (falsy-or-empty). -/
def loadKey (m : Msg) : String :=
  convKindStr m.type ++ "|" ++ jsTemplateOptStr m.sender ++ "|" ++ m.text ++ "|" ++
    jsFalsyOrNat m.channelIdx ++ "|" ++ (m.contactName.getD "")

/-- The `messages.filter` pass of `loadMessageCache` with its `seen` set of
keys: keep a message only when its key was not seen before. -/
def dedupCachedAux (seen : List String) : List Msg → List Msg
  | [] => []
  | m :: rest =>
      if loadKey m ∈ seen then dedupCachedAux seen rest
      else m :: dedupCachedAux (loadKey m :: seen) rest

/-- Load-time deduplication of the cached messages. -/
def dedupCached (msgs : List Msg) : List Msg :=
  dedupCachedAux [] msgs

/-- The observable states of the backing `message-cache.json` file. -/
inductive FileState where
  /-- State where `fs.existsSync` is false. -/
  | missing
  /-- State where `fs.readFileSync` throws. -/
  | unreadable (err : String)
  /-- State where `JSON.parse` throws. -/
  | corrupt (err : String)
  /-- Parse succeeded; `none` models a document without a `messages` field
  (`data.messages || []`). -/
  | parsed (msgs : Option (List Msg))

/-- The `try` body of `loadMessageCache`: any step may throw
(`Except.error`); a missing file falls through to `return []`; good data is
deduplicated. -/
def loadMessageCacheBody : FileState → Except String (List Msg)
  | FileState.missing => Except.ok []
  | FileState.unreadable e => Except.error e
  | FileState.corrupt e => Except.error e
  | FileState.parsed msgs => Except.ok (dedupCached (msgs.getD []))

/-- Function `loadMessageCache()` as its caller sees it: the `catch` block only logs,
and control reaches the final `return []`. -/
def loadMessageCache (fs : FileState) : Except String (List Msg) :=
  match loadMessageCacheBody fs with
  | Except.ok l => Except.ok l
  | Except.error _ => Except.ok []

/-! ## Outbound length guard in the TUI, and the web server send handler -/

/-- Constant `MAX_MESSAGE_BYTES = 200`, the MeshCore message limit. -/
def MAX_MESSAGE_BYTES : Nat := 200

/-- Function `getByteLength(str)`, the Buffer.byteLength of the string in
UTF-8, i.e. the UTF-8
byte size. -/
def getByteLength (str : String) : Nat :=
  str.utf8ByteSize

/-- JS `String.prototype.trim`: drop whitespace from both ends. Written
over the character list so it evaluates by kernel reduction; it agrees with
the JS trim on ASCII input. -/
def jsTrim (s : String) : String :=
  String.mk (((s.data.dropWhile Char.isWhitespace).reverse.dropWhile Char.isWhitespace).reverse)

/-- Outcome of one user send gesture in the TUI. -/
inductive EnterResult where
  /-- The guard `if (text && text.trim())` failed: nothing happens. -/
  | ignored
  /-- Over the byte limit: `setStatus` error shown, early return before any
  `sendMessage` call. -/
  | rejectedTooLong (bytes : Nat)
  /-- Outcome where `sendMessage` is invoked with exactly this trimmed text. -/
  | submitted (text : String)
deriving DecidableEq, Repr

/-- The Enter branch of the `inputBox` keypress handler in `src/tui.js`
(`String.trim` here models the JS trim; they agree on ASCII whitespace). -/
def onEnterKey (text : String) : EnterResult :=
  if text != "" && jsTrim text != "" then
    let bytes := getByteLength (jsTrim text)
    if bytes > MAX_MESSAGE_BYTES then EnterResult.rejectedTooLong bytes
    else EnterResult.submitted (jsTrim text)
  else EnterResult.ignored

/-- The `sendButton` press handler of `src/tui.js`: the same guard and limit
check as the Enter key path. -/
def onSendButtonPress (text : String) : EnterResult :=
  if text != "" && jsTrim text != "" then
    let bytes := getByteLength (jsTrim text)
    if bytes > MAX_MESSAGE_BYTES then EnterResult.rejectedTooLong bytes
    else EnterResult.submitted (jsTrim text)
  else EnterResult.ignored

/-- A call into the transport made by the server send handler. -/
inductive TransportCall where
  | sendChannelTextMessage (channelIdx : Nat) (text : String)
  | sendTextMessage (publicKey : List Nat) (text : String)
deriving DecidableEq, Repr

/-- The payload of the `sendMessage` socket event in `src/server.js`. -/
structure ServerSendData where
  type : String
  channelIdx : Option Nat
  publicKey : Option String
  text : String
deriving DecidableEq, Repr

/-- A contact record of the server state (`advName`, `publicKey`). -/
structure ServerContact where
  advName : String
  publicKey : List Nat
deriving DecidableEq, Repr

/-- Function `findContactByPubKey(hexKey)` of `src/server.js`. -/
def findContactByPubKey (contacts : List ServerContact) (hexKey : String) :
    Option ServerContact :=
  contacts.find? (fun c => bytesToHex c.publicKey == hexKey)

/-- The sendMessage socket event handler of `src/server.js`, lines 61-96,
projected onto the transport calls it makes: it forwards `data.text` to the
transport without any length check (`data.channelIdx || 0` defaults a falsy
index to 0). -/
def serverSendMessage (connected : Bool) (contacts : List ServerContact)
    (data : ServerSendData) : List TransportCall :=
  if !connected then []
  else if data.type == "channel" then
    [TransportCall.sendChannelTextMessage (data.channelIdx.getD 0) data.text]
  else if data.type == "direct" && data.publicKey.getD "" != "" then
    match findContactByPubKey contacts (data.publicKey.getD "") with
    | some c => [TransportCall.sendTextMessage c.publicKey data.text]
    | none => []
  else []

/-! ## Trace helpers and concrete instances used by the theorems -/

/-- A transport that accepts every attempt `k` with ack code `a k` and
estimated timeout `e k`. -/
def successOracle (a e : Nat → Nat) : Nat → Option (Nat × Nat) :=
  fun k => some (a k, e k)

/-- The no-acknowledgment execution of one direct send: the initial
`sendWithRetry(pk, text, msgId, 0)` followed by `k` firings of the armed ack
timeout, each for the ack code of the attempt it was armed by. -/
def noAckTrace (a e : Nat → Nat) (s : AppState) (pk : List Nat) (text msgId : String) :
    Nat → AppState
  | 0 => sendWithRetry (successOracle a e) s pk text msgId 0
  | Nat.succ k => fireAckTimeout (successOracle a e)
      (noAckTrace a e s pk text msgId k) (a k)

/-- A string of 201 ASCII characters: 201 UTF-8 bytes. -/
def ascii201 : String :=
  String.mk (List.replicate 201 (Char.ofNat 97))

/-- A stored channel message. -/
def c1m1 : Msg :=
  { id := "1", type := ConvKind.channel, channelIdx := some 0, contactName := none,
    text := "hi", sender := some "A", outgoing := false, status := none, timestamp := none }

/-- Same content key as `c1m1`, different id and timestamp. -/
def c1m2 : Msg :=
  { c1m1 with id := "2", timestamp := some 99 }

/-- A stored message with id `"5"`. -/
def c9stored : Msg :=
  { id := "5", type := ConvKind.channel, channelIdx := some 1, contactName := none,
    text := "first", sender := some "A", outgoing := false, status := none, timestamp := none }

/-- A message sharing only the id `"5"` (= `genMsgId 5`), with different
conversation, sender and text. -/
def c9later : Msg :=
  { id := "5", type := ConvKind.direct, channelIdx := none, contactName := some "Bob",
    text := "second", sender := some "B", outgoing := true,
    status := some MsgStatus.sending, timestamp := some 5 }

/-- An outgoing direct message awaiting delivery, id `"77"`. -/
def c2m0 : Msg :=
  { id := "77", type := ConvKind.direct, channelIdx := none, contactName := some "Bob",
    text := "yo", sender := some "Me", outgoing := true,
    status := some MsgStatus.sending, timestamp := some 77 }

/-- A connected state holding only `c2m0`, nothing pending. -/
def c2s0 : AppState :=
  { connected := true, selfInfo := none, contacts := [], channels := [],
    messages := [c2m0], pending := [],
    selectedChat := ⟨ConvKind.direct, none, some "Bob"⟩, unreadCounts := [] }

/-- A freshly connected state with no history, viewing channel 0. -/
def c8s0 : AppState :=
  { connected := true, selfInfo := some "Me", contacts := [], channels := [⟨0, "Public"⟩],
    messages := [], pending := [],
    selectedChat := ⟨ConvKind.channel, some 0, some "Public"⟩, unreadCounts := [] }

/-- A connected state with an empty contact snapshot, viewing the direct
chat `"Ghost"`. -/
def c10s0 : AppState :=
  { connected := true, selfInfo := some "Me", contacts := [], channels := [],
    messages := [], pending := [],
    selectedChat := ⟨ConvKind.direct, none, some "Ghost"⟩, unreadCounts := [] }

/-- The state of C4: connected, no known contacts, viewing channel 0. -/
def c4State : AppState :=
  { connected := true, selfInfo := none, contacts := [], channels := [],
    messages := [], pending := [],
    selectedChat := ⟨ConvKind.channel, some 0, some "Public"⟩, unreadCounts := [] }

/-- An inbound direct message whose 6-byte-prefix hex is `a1b2c3` and does
not match any contact. -/
def c4Msg : InboundContactMsg :=
  ⟨[0xa1, 0xb2, 0xc3], "hello"⟩

/-- Two cached messages with equal load keys, one distinct one between them. -/
def c6a : Msg := c1m1

/-- Distinct content. -/
def c6b : Msg :=
  { c1m1 with id := "2", text := "other" }

/-- Duplicate-by-content of `c6a` with a different id. -/
def c6a2 : Msg :=
  { c1m1 with id := "3" }

/-! ## Helper lemmas -/

/-- The content key is reflexive. -/
theorem sameContentKey_self (m : Msg) : sameContentKey m m = true := by
  simp [sameContentKey]

/-- A non-duplicate carries no content match against any stored message. -/
theorem not_dup_no_content_match (msgs : List Msg) (msg : Msg)
    (h : isDuplicate msgs msg = false) :
    ∀ m ∈ msgs, sameContentKey m msg = false := by
  intro m hm
  have := (List.any_eq_false.mp h) m hm
  simp [isDuplicateOf] at this
  exact this.2

/-- A non-duplicate shares no id with any stored message. -/
theorem not_dup_no_id_match (msgs : List Msg) (msg : Msg)
    (h : isDuplicate msgs msg = false) :
    ∀ m ∈ msgs, (m.id == msg.id) = false := by
  intro m hm
  have := (List.any_eq_false.mp h) m hm
  simp [isDuplicateOf] at this
  exact beq_false_of_ne this.1

/-! ## C1: content-duplicate appends are rejected -/

/-- C1: for any stored log in which `m1` is fresh, appending `m1` stores it,
and then appending any `m2` with the same
(conversationKind, channelIndex-or-peerName, senderDisplayName, text) key is
a no-op that leaves the log unchanged, so exactly one message with that
content key is stored. -/
theorem addMessage_content_dedup (msgs : List Msg) (m1 m2 : Msg)
    (hkey : sameContentKey m1 m2 = true)
    (hfresh : isDuplicate msgs m1 = false) :
    addMessage msgs m1 = msgs ++ [m1]
  ∧ addMessage (addMessage msgs m1) m2 = addMessage msgs m1
  ∧ ((addMessage (addMessage msgs m1) m2).filter (fun m => sameContentKey m m1)).length = 1 := by
  have h1 : addMessage msgs m1 = msgs ++ [m1] := by
    simp [addMessage, hfresh]
  have hdup2 : isDuplicate (msgs ++ [m1]) m2 = true := by
    apply List.any_eq_true.mpr
    exact ⟨m1, by simp, by simp [isDuplicateOf, hkey]⟩
  have h2 : addMessage (addMessage msgs m1) m2 = addMessage msgs m1 := by
    rw [h1, addMessage, hdup2]
    simp
  refine ⟨h1, h2, ?_⟩
  rw [h2, h1, List.filter_append]
  have hnil : msgs.filter (fun m => sameContentKey m m1) = [] := by
    apply List.filter_eq_nil_iff.mpr
    intro m hm
    simp [not_dup_no_content_match msgs m1 hfresh m hm]
  rw [hnil]
  simp [sameContentKey_self]

/-- Witness for C1 at a concrete pair. -/
theorem addMessage_content_dedup_witness :
    addMessage (addMessage [] c1m1) c1m2 = addMessage [] c1m1 :=
  (addMessage_content_dedup [] c1m1 c1m2 (by decide) (by decide)).2.1

/-! ## C9: id-equality alone rejects an append; same-millisecond ids collide -/

/-- C9: (a) a message whose id equals the id of any stored message is
rejected by `addMessage`, whatever its conversation, sender and text; (b)
since `sendMessage` and the inbound handlers all generate the id as
`Date.now().toString()` (`genMsgId`), two distinct fresh messages created in
the same millisecond share an id, and the later one is silently dropped. -/
theorem addMessage_id_collision :
    (∀ (msgs : List Msg) (m m' : Msg), m' ∈ msgs → m'.id = m.id →
      addMessage msgs m = msgs)
  ∧ (∀ (msgs : List Msg) (now : Nat) (m1 m2 : Msg),
      m1.id = genMsgId now → m2.id = genMsgId now →
      isDuplicate msgs m1 = false →
      addMessage (addMessage msgs m1) m2 = msgs ++ [m1]) := by
  have rej : ∀ (msgs : List Msg) (m m' : Msg), m' ∈ msgs → m'.id = m.id →
      addMessage msgs m = msgs := by
    intro msgs m m' hmem hid
    have hdup : isDuplicate msgs m = true :=
      List.any_eq_true.mpr ⟨m', hmem, by simp [isDuplicateOf, hid]⟩
    simp [addMessage, hdup]
  refine ⟨rej, ?_⟩
  intro msgs now m1 m2 h1 h2 hfresh
  have hadd : addMessage msgs m1 = msgs ++ [m1] := by
    simp [addMessage, hfresh]
  rw [hadd]
  exact rej (msgs ++ [m1]) m2 m1 (by simp) (h1.trans h2.symm)

/-- Witness for C9: the later message is dropped despite differing in every
content field. -/
theorem addMessage_id_collision_witness :
    addMessage [c9stored] c9later = [c9stored] :=
  addMessage_id_collision.1 [c9stored] c9later c9stored (by decide) (by decide)

/-! ## C2: bounded retry on missing acks, immediate delivery on ack -/

/-- With no pending entries, a firing (stale) ack timeout is a no-op. -/
theorem fireAckTimeout_pending_nil (oracle : Nat → Option (Nat × Nat)) (s : AppState)
    (hp : s.pending = []) (c : Nat) : fireAckTimeout oracle s c = s := by
  simp [fireAckTimeout, mapGet, hp]

/-- With no pending entries, a send confirmation is a no-op. -/
theorem onSendConfirmed_pending_nil (s : AppState) (hp : s.pending = []) (c : Nat) :
    onSendConfirmed s c = s := by
  simp [onSendConfirmed, mapGet, hp]

/-- With no pending entries, any trace of delivery events is a no-op. -/
theorem applyAckEvents_pending_nil (oracle : Nat → Option (Nat × Nat)) (s : AppState)
    (hp : s.pending = []) (evs : List AckEvent) : applyAckEvents oracle s evs = s := by
  induction evs with
  | nil => rfl
  | cons ev evs ih =>
      have h1 : applyAckEvent oracle s ev = s := by
        cases ev with
        | confirmed c => exact onSendConfirmed_pending_nil s hp c
        | timeoutFired c => exact fireAckTimeout_pending_nil oracle s hp c
      simp only [applyAckEvents, List.foldl_cons, h1]
      exact ih

/-- A transport-accepted attempt stores the pending entry armed with
`estTimeout + 3000` and marks the message `sent`. -/
theorem sendWithRetry_success (a e : Nat → Nat) (s : AppState) (pk : List Nat)
    (text msgId : String) (attempt : Nat) :
    sendWithRetry (successOracle a e) s pk text msgId attempt =
      { s with pending := mapSet s.pending (a attempt) ⟨msgId, attempt, pk, text, e attempt + 3000⟩,
               messages := updateMessageStatus s.messages msgId MsgStatus.sent } := by
  rfl

/-- The states of the no-acknowledgment execution: three total attempts
(attempt fields 0, 1, 2), each armed with the transport estimate plus the
3000 ms margin, then `failed` with nothing pending. -/
theorem noAckTrace_states (a e : Nat → Nat) (pk : List Nat) (text : String)
    (m0 : Msg) (s : AppState) (hm : s.messages = [m0]) (hp : s.pending = []) :
    noAckTrace a e s pk text m0.id 0
      = { s with pending := [(a 0, ⟨m0.id, 0, pk, text, e 0 + 3000⟩)],
                 messages := [{ m0 with status := some MsgStatus.sent }] }
  ∧ noAckTrace a e s pk text m0.id 1
      = { s with pending := [(a 1, ⟨m0.id, 1, pk, text, e 1 + 3000⟩)],
                 messages := [{ m0 with status := some MsgStatus.sent }] }
  ∧ noAckTrace a e s pk text m0.id 2
      = { s with pending := [(a 2, ⟨m0.id, 2, pk, text, e 2 + 3000⟩)],
                 messages := [{ m0 with status := some MsgStatus.sent }] }
  ∧ noAckTrace a e s pk text m0.id 3
      = { s with pending := [],
                 messages := [{ m0 with status := some MsgStatus.failed }] } := by
  have h0 : noAckTrace a e s pk text m0.id 0
      = { s with pending := [(a 0, ⟨m0.id, 0, pk, text, e 0 + 3000⟩)],
                 messages := [{ m0 with status := some MsgStatus.sent }] } := by
    show sendWithRetry (successOracle a e) s pk text m0.id 0 = _
    rw [sendWithRetry_success, hm, hp]
    simp [mapSet, updateMessageStatus]
  have h1 : noAckTrace a e s pk text m0.id 1
      = { s with pending := [(a 1, ⟨m0.id, 1, pk, text, e 1 + 3000⟩)],
                 messages := [{ m0 with status := some MsgStatus.sent }] } := by
    show fireAckTimeout (successOracle a e) (noAckTrace a e s pk text m0.id 0) (a 0) = _
    rw [h0]
    simp [fireAckTimeout, mapGet, mapDelete, MAX_RETRIES]
    rw [sendWithRetry_success]
    simp [mapSet, updateMessageStatus]
  have h2 : noAckTrace a e s pk text m0.id 2
      = { s with pending := [(a 2, ⟨m0.id, 2, pk, text, e 2 + 3000⟩)],
                 messages := [{ m0 with status := some MsgStatus.sent }] } := by
    show fireAckTimeout (successOracle a e) (noAckTrace a e s pk text m0.id 1) (a 1) = _
    rw [h1]
    simp [fireAckTimeout, mapGet, mapDelete, MAX_RETRIES]
    rw [sendWithRetry_success]
    simp [mapSet, updateMessageStatus]
  have h3 : noAckTrace a e s pk text m0.id 3
      = { s with pending := [],
                 messages := [{ m0 with status := some MsgStatus.failed }] } := by
    show fireAckTimeout (successOracle a e) (noAckTrace a e s pk text m0.id 2) (a 2) = _
    rw [h2]
    simp [fireAckTimeout, mapGet, mapDelete, MAX_RETRIES, updateMessageStatus]
  exact ⟨h0, h1, h2, h3⟩

/-- C2: with a transport that accepts every attempt and no acknowledgment
arriving, a direct send is retried exactly twice after the initial attempt —
the pending entries of the three attempts carry attempt numbers 0, 1, 2,
each armed with the transport estimate plus the 3000 ms margin — and the
third timeout marks the message `failed` with nothing pending; after that no
event ever changes the state again. An acknowledgment arriving while
attempt `k` (k ≤ 2) is pending immediately marks the message `delivered`,
removes the pending entry, and no further retry occurs: the stale timeout
and every later event are no-ops. -/
theorem sendWithRetry_bounded_and_ack (a e : Nat → Nat) (pk : List Nat) (text : String)
    (m0 : Msg) (s : AppState) (hm : s.messages = [m0]) (hp : s.pending = []) :
    ((noAckTrace a e s pk text m0.id 0).pending = [(a 0, ⟨m0.id, 0, pk, text, e 0 + 3000⟩)]
      ∧ (noAckTrace a e s pk text m0.id 0).messages = [{ m0 with status := some MsgStatus.sent }])
  ∧ ((noAckTrace a e s pk text m0.id 1).pending = [(a 1, ⟨m0.id, 1, pk, text, e 1 + 3000⟩)]
      ∧ (noAckTrace a e s pk text m0.id 1).messages = [{ m0 with status := some MsgStatus.sent }])
  ∧ ((noAckTrace a e s pk text m0.id 2).pending = [(a 2, ⟨m0.id, 2, pk, text, e 2 + 3000⟩)]
      ∧ (noAckTrace a e s pk text m0.id 2).messages = [{ m0 with status := some MsgStatus.sent }])
  ∧ ((noAckTrace a e s pk text m0.id 3).messages = [{ m0 with status := some MsgStatus.failed }]
      ∧ (noAckTrace a e s pk text m0.id 3).pending = [])
  ∧ (∀ k, noAckTrace a e s pk text m0.id (3 + k) = noAckTrace a e s pk text m0.id 3)
  ∧ (∀ k, k ≤ 2 →
      (onSendConfirmed (noAckTrace a e s pk text m0.id k) (a k)).messages
          = [{ m0 with status := some MsgStatus.delivered }]
        ∧ (onSendConfirmed (noAckTrace a e s pk text m0.id k) (a k)).pending = []
        ∧ ∀ evs, applyAckEvents (successOracle a e)
            (onSendConfirmed (noAckTrace a e s pk text m0.id k) (a k)) evs
            = onSendConfirmed (noAckTrace a e s pk text m0.id k) (a k)) := by
  obtain ⟨h0, h1, h2, h3⟩ := noAckTrace_states a e pk text m0 s hm hp
  refine ⟨⟨by rw [h0], by rw [h0]⟩, ⟨by rw [h1], by rw [h1]⟩, ⟨by rw [h2], by rw [h2]⟩,
          ⟨by rw [h3], by rw [h3]⟩, ?_, ?_⟩
  · intro k
    induction k with
    | zero => rfl
    | succ k ih =>
        have harith : 3 + (k + 1) = (3 + k) + 1 := by omega
        rw [harith]
        show fireAckTimeout (successOracle a e) (noAckTrace a e s pk text m0.id (3 + k)) (a (3 + k))
            = noAckTrace a e s pk text m0.id 3
        rw [ih]
        exact fireAckTimeout_pending_nil _ _ (by rw [h3]) _
  · intro k hk
    have hack : ∀ (kk : Nat),
        noAckTrace a e s pk text m0.id kk
          = { s with pending := [(a kk, ⟨m0.id, kk, pk, text, e kk + 3000⟩)],
                     messages := [{ m0 with status := some MsgStatus.sent }] } →
        (onSendConfirmed (noAckTrace a e s pk text m0.id kk) (a kk)).messages
            = [{ m0 with status := some MsgStatus.delivered }]
          ∧ (onSendConfirmed (noAckTrace a e s pk text m0.id kk) (a kk)).pending = []
          ∧ ∀ evs, applyAckEvents (successOracle a e)
              (onSendConfirmed (noAckTrace a e s pk text m0.id kk) (a kk)) evs
              = onSendConfirmed (noAckTrace a e s pk text m0.id kk) (a kk) := by
      intro kk hkk
      have hcon : onSendConfirmed (noAckTrace a e s pk text m0.id kk) (a kk)
          = { s with pending := [],
                     messages := [{ m0 with status := some MsgStatus.delivered }] } := by
        rw [hkk]
        simp [onSendConfirmed, mapGet, mapDelete, updateMessageStatus]
      refine ⟨by rw [hcon], by rw [hcon], ?_⟩
      intro evs
      exact applyAckEvents_pending_nil _ _ (by rw [hcon]) evs
    interval_cases k
    · exact hack 0 h0
    · exact hack 1 h1
    · exact hack 2 h2

/-- Witness for C2: the concrete no-ack run ends `failed` after the three
attempts. -/
theorem sendWithRetry_bounded_and_ack_witness :
    (noAckTrace (fun k => 100 + k) (fun _ => 5000) c2s0 [1, 2] "yo" "77" 3).messages
      = [{ c2m0 with status := some MsgStatus.failed }] :=
  (sendWithRetry_bounded_and_ack (fun k => 100 + k) (fun _ => 5000) [1, 2] "yo" c2m0 c2s0
    rfl rfl).2.2.2.1.1

/-! ## C3: reconnect backoff sequence and counter resets -/

/-- Running `k` consecutive connect failures from counter `a` arms the
delays `retryDelay a, retryDelay (a + 1), ...` in order and leaves the
counter at `a + k`. -/
theorem connRun_replicate_failure (k : Nat) : ∀ a : Nat,
    connRun a (List.replicate k ConnEvent.connectFailure)
      = (a + k, (List.range k).map (fun i => retryDelay (a + i))) := by
  induction k with
  | zero => intro a; simp [connRun]
  | succ k ih =>
      intro a
      rw [List.replicate_succ]
      simp only [connRun, connStep, scheduleRetry]
      rw [ih (a + 1)]
      have hfun : (fun i => retryDelay (a + 1 + i)) = (fun i => retryDelay (a + (i + 1))) := by
        funext i
        congr 1
        omega
      rw [List.range_succ_eq_map]
      simp only [List.map_cons, List.map_map, Prod.mk.injEq]
      constructor
      · omega
      · simp [Function.comp_def, hfun, Nat.add_zero]

/-- C3: from a reset counter, the delay armed by the k-th consecutive
connection failure is `min(2000 * 2^(k-1), 30000)` ms (0-based: failure `i`
arms `min(2000 * 2^i, 30000)`), the first six delays being 2000, 4000, 8000,
16000, 30000, 30000; a successful connect resets the counter to 0 so the
next armed delay is 2000 ms again, and a surprise mid-session disconnect
resets the counter to 0 before scheduling, arming 2000 ms immediately. -/
theorem reconnect_backoff (k attempt : Nat) :
    (connRun 0 (List.replicate k ConnEvent.connectFailure)).2
      = (List.range k).map (fun i => min (2000 * 2 ^ i) 30000)
  ∧ (connRun 0 (List.replicate 6 ConnEvent.connectFailure)).2
      = [2000, 4000, 8000, 16000, 30000, 30000]
  ∧ connStep attempt ConnEvent.connectSuccess = (0, none)
  ∧ (connStep (connStep attempt ConnEvent.connectSuccess).1 ConnEvent.connectFailure).2
      = some 2000
  ∧ connStep attempt ConnEvent.surpriseDisconnect = (1, some 2000) := by
  refine ⟨?_, by decide, by simp [connStep], ?_, ?_⟩
  · rw [connRun_replicate_failure]
    simp [retryDelay]
  · simp [connStep, scheduleRetry, retryDelay]
  · simp [connStep, scheduleRetry, retryDelay]

/-! ## C4: duplicate inbound DM — stored once, but unread counted twice -/

/-- C4 (evaluating the code at the scenario of the spec): two back-to-back
inbound direct messages from the same unresolved key prefix (hex `a1b2c3`)
with identical text, while a different chat is selected. The second message
is rejected by the store dedup, so exactly one message is stored — yet the
unread count for that peer ends at 2, not 1, because `handleContactMessage`
runs `incrementUnread` unconditionally after `addMessage`, whether or not
the message was stored. -/
theorem duplicate_dm_unread_double_increment :
    (handleContactMessage (handleContactMessage c4State 1000 c4Msg) 1001 c4Msg).messages.length
      = 1
  ∧ getUnreadCount (handleContactMessage (handleContactMessage c4State 1000 c4Msg) 1001 c4Msg)
      "direct" "a1b2c3" = 2 := by
  decide

/-! ## C5: the 200-byte outbound limit -/

/-- C5 (amended): both TUI send entry points — Enter in the input box and
the Send button — reject a text whose trimmed UTF-8 byte length exceeds 200
with a user-visible error, before any `sendMessage` (hence any transport)
call, and a submitted text is always passed through verbatim (trimmed only,
never truncated) within the limit. The web server socket entry point, by
contrast, performs no length check: a connected channel send always forwards
the full text to the transport. -/
theorem tui_send_rejects_oversize (text : String)
    (h : getByteLength (jsTrim text) > MAX_MESSAGE_BYTES) :
    onEnterKey text = EnterResult.rejectedTooLong (getByteLength (jsTrim text))
  ∧ onSendButtonPress text = EnterResult.rejectedTooLong (getByteLength (jsTrim text))
  ∧ (∀ t, onEnterKey text ≠ EnterResult.submitted t)
  ∧ (∀ (u t : String), onEnterKey u = EnterResult.submitted t →
      t = jsTrim u ∧ getByteLength t ≤ MAX_MESSAGE_BYTES)
  ∧ (∀ (contacts : List ServerContact) (d : ServerSendData), d.type = "channel" →
      serverSendMessage true contacts d
        = [TransportCall.sendChannelTextMessage (d.channelIdx.getD 0) d.text]) := by
  have htrim : jsTrim text ≠ "" := by
    intro e
    rw [e] at h
    exact absurd h (by decide)
  have htext : text ≠ "" := by
    intro e
    apply htrim
    rw [e]
    rfl
  have hcond : (text != "" && jsTrim text != "") = true := by
    simp [htext, htrim]
  have henter : onEnterKey text = EnterResult.rejectedTooLong (getByteLength (jsTrim text)) := by
    rw [onEnterKey, if_pos hcond]
    simp [h]
  have hbutton : onSendButtonPress text
      = EnterResult.rejectedTooLong (getByteLength (jsTrim text)) := by
    rw [onSendButtonPress, if_pos hcond]
    simp [h]
  refine ⟨henter, hbutton, ?_, ?_, ?_⟩
  · intro t
    rw [henter]
    intro hbad
    cases hbad
  · intro u t hsub
    rw [onEnterKey] at hsub
    split at hsub
    · by_cases hlen : getByteLength (jsTrim u) > MAX_MESSAGE_BYTES
      · simp [hlen] at hsub
      · simp [hlen] at hsub
        refine ⟨hsub.symm, ?_⟩
        rw [← hsub]
        omega
    · cases hsub
  · intro contacts d hty
    have hb : (d.type == "channel") = true := by simp [hty]
    simp [serverSendMessage, hb]

/-- Witness for C5: a 201-byte ASCII text is rejected on the Enter path. -/
theorem tui_send_rejects_oversize_witness :
    onEnterKey ascii201 = EnterResult.rejectedTooLong 201 :=
  ((tui_send_rejects_oversize ascii201 (by decide)).1).trans (by decide)

/-- Counterexample to C5 as stated: the `sendMessage` socket handler of
`src/server.js` is a user-exposed send entry point, and with a 201-byte
ASCII text it makes the channel transport call with the full, untruncated
text — no rejection happens before the transport call. -/
theorem server_send_no_length_check :
    getByteLength ascii201 = 201
  ∧ MAX_MESSAGE_BYTES < getByteLength ascii201
  ∧ serverSendMessage true []
      { type := "channel", channelIdx := some 0, publicKey := none, text := ascii201 }
      = [TransportCall.sendChannelTextMessage 0 ascii201] := by
  refine ⟨by decide, by decide, by decide⟩

/-! ## C6: load-time deduplication keeps the first of each duplicate group -/

/-- The dedup filter output is a sublist of its input (so the relative order
of kept messages is the persisted order). -/
theorem dedupCachedAux_sublist (l : List Msg) : ∀ seen : List String,
    (dedupCachedAux seen l).Sublist l := by
  induction l with
  | nil => intro seen; simp [dedupCachedAux]
  | cons m rest ih =>
      intro seen
      simp only [dedupCachedAux]
      split
      · exact (ih seen).cons m
      · exact (ih (loadKey m :: seen)).cons₂ m

/-- Every kept message has a key outside the `seen` set. -/
theorem dedupCachedAux_key_not_seen (l : List Msg) : ∀ (seen : List String) (m : Msg),
    m ∈ dedupCachedAux seen l → loadKey m ∉ seen := by
  induction l with
  | nil => intro seen m hm; simp [dedupCachedAux] at hm
  | cons x rest ih =>
      intro seen m hm
      simp only [dedupCachedAux] at hm
      split at hm
      · exact ih seen m hm
      · rcases List.mem_cons.mp hm with rfl | hm2
        · assumption
        · intro hin
          exact ih (loadKey x :: seen) m hm2 (List.mem_cons_of_mem _ hin)

/-- The kept messages have pairwise distinct keys. -/
theorem dedupCachedAux_keys_nodup (l : List Msg) : ∀ seen : List String,
    ((dedupCachedAux seen l).map loadKey).Nodup := by
  induction l with
  | nil => intro seen; simp [dedupCachedAux]
  | cons x rest ih =>
      intro seen
      simp only [dedupCachedAux]
      split
      · exact ih seen
      · simp only [List.map_cons, List.nodup_cons]
        refine ⟨?_, ih (loadKey x :: seen)⟩
        intro hmem
        rcases List.mem_map.mp hmem with ⟨m, hm, hkey⟩
        exact dedupCachedAux_key_not_seen rest (loadKey x :: seen) m hm
          (by rw [hkey]; exact List.mem_cons_self _ _)

/-- Each kept message is the first message of the input with its key. -/
theorem dedupCachedAux_first_seen (l : List Msg) : ∀ (seen : List String) (m : Msg),
    m ∈ dedupCachedAux seen l →
    l.find? (fun x => loadKey x == loadKey m) = some m := by
  induction l with
  | nil => intro seen m hm; simp [dedupCachedAux] at hm
  | cons x rest ih =>
      intro seen m hm
      simp only [dedupCachedAux] at hm
      split at hm
      · have hne : (loadKey x == loadKey m) = false := by
          apply beq_false_of_ne
          intro he
          exact dedupCachedAux_key_not_seen rest seen m hm (he ▸ (by assumption))
        rw [List.find?_cons, hne]
        exact ih seen m hm
      · rcases List.mem_cons.mp hm with rfl | hm2
        · rw [List.find?_cons, beq_self_eq_true]
        · have hne : (loadKey x == loadKey m) = false := by
            apply beq_false_of_ne
            intro he
            exact dedupCachedAux_key_not_seen rest (loadKey x :: seen) m hm2
              (he ▸ List.mem_cons_self _ _)
          rw [List.find?_cons, hne]
          exact ih (loadKey x :: seen) m hm2

/-- Every input message whose key is not already in `seen` has a kept
representative with the same key. -/
theorem dedupCachedAux_covers (l : List Msg) : ∀ (seen : List String) (x : Msg),
    x ∈ l → loadKey x ∈ seen ∨ ∃ m ∈ dedupCachedAux seen l, loadKey m = loadKey x := by
  induction l with
  | nil => intro seen x hx; simp at hx
  | cons y rest ih =>
      intro seen x hx
      simp only [dedupCachedAux]
      rcases List.mem_cons.mp hx with rfl | hx2
      · by_cases hy : loadKey x ∈ seen
        · exact Or.inl hy
        · right
          rw [if_neg hy]
          exact ⟨x, List.mem_cons_self _ _, rfl⟩
      · by_cases hy : loadKey y ∈ seen
        · rw [if_pos hy]
          exact ih seen x hx2
        · rw [if_neg hy]
          rcases ih (loadKey y :: seen) x hx2 with hseen | ⟨m, hm, hkey⟩
          · rcases List.mem_cons.mp hseen with heq | hseen2
            · exact Or.inr ⟨y, List.mem_cons_self _ _, heq.symm⟩
            · exact Or.inl hseen2
          · exact Or.inr ⟨m, List.mem_cons_of_mem _ hm, hkey⟩

/-- C6: loading a persisted log deduplicates by the load key: the result is
a sublist of the persisted log (first-seen order preserved), never longer,
strictly shorter when the log contains a duplicate pair; every kept message
is the first persisted message with its key, and every persisted key keeps a
representative. -/
theorem loadMessageCache_dedup (l : List Msg) :
    (dedupCached l).Sublist l
  ∧ (dedupCached l).length ≤ l.length
  ∧ (¬ (l.map loadKey).Nodup → (dedupCached l).length < l.length)
  ∧ (∀ m ∈ dedupCached l, l.find? (fun x => loadKey x == loadKey m) = some m)
  ∧ (∀ x ∈ l, ∃ m ∈ dedupCached l, loadKey m = loadKey x)
  ∧ loadMessageCache (FileState.parsed (some l)) = Except.ok (dedupCached l) := by
  have hsub : (dedupCached l).Sublist l := dedupCachedAux_sublist l []
  have hle : (dedupCached l).length ≤ l.length := hsub.length_le
  refine ⟨hsub, hle, ?_, ?_, ?_, rfl⟩
  · intro hdup
    rcases Nat.lt_or_ge (dedupCached l).length l.length with hlt | hge
    · exact hlt
    · exfalso
      have heq : dedupCached l = l := hsub.eq_of_length (Nat.le_antisymm hle hge)
      exact hdup (heq ▸ dedupCachedAux_keys_nodup l [])
  · intro m hm
    exact dedupCachedAux_first_seen l [] m hm
  · intro x hx
    rcases dedupCachedAux_covers l [] x hx with hseen | hrep
    · simp at hseen
    · exact hrep

/-- Witness for C6 at a concrete log with one duplicate pair. -/
theorem loadMessageCache_dedup_witness :
    (dedupCached [c6a, c6b, c6a2]).length < ([c6a, c6b, c6a2] : List Msg).length :=
  (loadMessageCache_dedup [c6a, c6b, c6a2]).2.2.1 (by decide)

/-! ## C7: loading never throws; missing or corrupt file means empty log -/

/-- C7: whatever the state of the backing file, `loadMessageCache` returns a
log to its caller and never propagates an error: a missing file, an
unreadable file and a parse failure all yield the empty log. -/
theorem loadMessageCache_total (fs : FileState) :
    (∃ msgs, loadMessageCache fs = Except.ok msgs)
  ∧ loadMessageCache FileState.missing = Except.ok []
  ∧ (∀ e, loadMessageCache (FileState.corrupt e) = Except.ok [])
  ∧ (∀ e, loadMessageCache (FileState.unreadable e) = Except.ok []) := by
  refine ⟨?_, rfl, fun e => rfl, fun e => rfl⟩
  cases fs with
  | missing => exact ⟨[], rfl⟩
  | unreadable e => exact ⟨[], rfl⟩
  | corrupt e => exact ⟨[], rfl⟩
  | parsed msgs => exact ⟨dedupCached (msgs.getD []), rfl⟩

/-! ## C8: channel send lifecycle Sending → Sent, never Delivered -/

/-- C8: a channel send from a connected state with no history stores exactly
one message, outgoing with status `sending`; the dispatch is the channel
transport call; once it resolves the status is `sent`; and no subsequent
trace of delivery events (send confirmations, stale ack timeouts) ever
changes the state again — in particular the message never becomes
`delivered`. -/
theorem channel_send_lifecycle (s : AppState) (now : Nat) (text : String)
    (oracle : Nat → Option (Nat × Nat))
    (hc : s.connected = true) (hm : s.messages = []) (hp : s.pending = [])
    (hsel : s.selectedChat.type = ConvKind.channel) :
    (sendMessageStart s now text).1.messages = [mkOutgoingMsg s now text]
  ∧ (mkOutgoingMsg s now text).outgoing = true
  ∧ (mkOutgoingMsg s now text).status = some MsgStatus.sending
  ∧ (sendMessageStart s now text).2
      = SendDispatch.channelSendStarted s.selectedChat.idx (genMsgId now)
  ∧ (channelSendResolved (sendMessageStart s now text).1 (genMsgId now)).messages
      = [{ mkOutgoingMsg s now text with status := some MsgStatus.sent }]
  ∧ (∀ evs, applyAckEvents oracle
        (channelSendResolved (sendMessageStart s now text).1 (genMsgId now)) evs
      = channelSendResolved (sendMessageStart s now text).1 (genMsgId now))
  ∧ (channelSendResolved (sendMessageStart s now text).1 (genMsgId now)).messages.all
      (fun m => m.status != some MsgStatus.delivered) = true := by
  have hks : (s.selectedChat.type == ConvKind.channel) = true := by
    rw [hsel]
    rfl
  have hstart : sendMessageStart s now text
      = ({ s with messages := [mkOutgoingMsg s now text] },
         SendDispatch.channelSendStarted s.selectedChat.idx (genMsgId now)) := by
    rw [sendMessageStart]
    rw [hc]
    simp only [Bool.not_true, Bool.false_eq_true, if_false, hks, if_true]
    rw [hm]
    simp [addMessage, isDuplicate]
  have hid : (mkOutgoingMsg s now text).id = genMsgId now := rfl
  have hres : channelSendResolved (sendMessageStart s now text).1 (genMsgId now)
      = { s with messages := [{ mkOutgoingMsg s now text with status := some MsgStatus.sent }] } := by
    rw [hstart]
    simp only [channelSendResolved]
    rw [← hid]
    simp [updateMessageStatus]
  refine ⟨by rw [hstart], rfl, rfl, by rw [hstart], by rw [hres], ?_, by rw [hres]; rfl⟩
  intro evs
  exact applyAckEvents_pending_nil oracle _ (by rw [hres]; exact hp) evs

/-- Witness for C8 at the concrete scenario `sendMessage` on channel 0 with
text `"hi"` from a fresh connected state. -/
theorem channel_send_lifecycle_witness :
    (channelSendResolved (sendMessageStart c8s0 5 "hi").1 (genMsgId 5)).messages
      = [{ mkOutgoingMsg c8s0 5 "hi" with status := some MsgStatus.sent }] :=
  (channel_send_lifecycle c8s0 5 "hi" (fun _ => none) rfl rfl rfl rfl).2.2.2.2.1

/-! ## C10: direct send to an unknown contact fails synchronously -/

/-- The status update of a freshly appended message rewrites only that
message when no earlier stored message shares its id. -/
theorem updateMessageStatus_append (msgs : List Msg) (m : Msg) (st : MsgStatus)
    (h : ∀ x ∈ msgs, (x.id == m.id) = false) :
    updateMessageStatus (msgs ++ [m]) m.id st = msgs ++ [{ m with status := some st }] := by
  induction msgs with
  | nil => simp [updateMessageStatus]
  | cons x rest ih =>
      have hx : (x.id == m.id) = false := h x (List.mem_cons_self _ _)
      simp only [List.cons_append, updateMessageStatus, hx, Bool.false_eq_true, if_false,
        List.append_eq]
      rw [ih (fun y hy => h y (List.mem_cons_of_mem _ hy))]

/-- C10: a direct send whose selected peer matches no contact in the
snapshot still stores the outgoing message, which is synchronously marked
`failed`; no transport call is made and no retry is started (the dispatch is
`contactNotFound` and the pending map is untouched). -/
theorem direct_send_unknown_contact (s : AppState) (now : Nat) (text : String)
    (hc : s.connected = true)
    (hsel : s.selectedChat.type = ConvKind.direct)
    (hfind : s.contacts.find? (fun c => some c.name == s.selectedChat.name) = none)
    (hfresh : isDuplicate s.messages (mkOutgoingMsg s now text) = false) :
    sendMessageStart s now text
      = ({ s with messages :=
             s.messages ++ [{ mkOutgoingMsg s now text with status := some MsgStatus.failed }] },
         SendDispatch.contactNotFound (genMsgId now)) := by
  have hks : (s.selectedChat.type == ConvKind.channel) = false := by
    rw [hsel]
    rfl
  have hid : (mkOutgoingMsg s now text).id = genMsgId now := rfl
  rw [sendMessageStart, hc]
  simp only [Bool.not_true, Bool.false_eq_true, if_false, hks, hfind]
  have hadd : addMessage s.messages (mkOutgoingMsg s now text)
      = s.messages ++ [mkOutgoingMsg s now text] := by
    simp [addMessage, hfresh]
  rw [hadd, ← hid,
    updateMessageStatus_append s.messages (mkOutgoingMsg s now text) MsgStatus.failed
      (not_dup_no_id_match s.messages (mkOutgoingMsg s now text) hfresh)]

/-- Witness for C10: sending to the unknown peer `"Ghost"` from a connected
state with an empty contact snapshot. -/
theorem direct_send_unknown_contact_witness :
    sendMessageStart c10s0 9 "hello"
      = ({ c10s0 with messages :=
             [{ mkOutgoingMsg c10s0 9 "hello" with status := some MsgStatus.failed }] },
         SendDispatch.contactNotFound (genMsgId 9)) :=
  direct_send_unknown_contact c10s0 9 "hello" rfl rfl rfl rfl

end LoraChat
